import Mathlib

/-!
Shallow embedding of the CISA-KEV-API server (src/index.js) and proofs about
its ingestion pipeline, API-key credential store and authentication gate.

Strings are modelled as Lean `String`; SQL values as an explicit `SqlValue`
type with a distinguished null; the MySQL store as explicit state passed in
and out of each operation.  SQL string comparison (`=` in a WHERE clause) is
read as exact binary string equality.
-/

namespace KevApi

/-- JS `WhiteSpace`/`LineTerminator` characters relevant to
`String.prototype.trim`, restricted to the ASCII range. -/
def jsWhitespaceChar (c : Char) : Bool :=
  c = ' ' || c = '\t' || c = '\n' || c = '\r' || c = (Char.ofNat 11) || c = (Char.ofNat 12)

/-- JS `s.trim()`: drop leading and trailing whitespace. -/
def jsTrim (s : String) : String :=
  ⟨((s.data.dropWhile jsWhitespaceChar).reverse.dropWhile jsWhitespaceChar).reverse⟩

/-- The JS regex test `/^\d+$/.test(s)`: one or more ASCII digits. -/
def reAllDigits (s : String) : Bool :=
  !s.data.isEmpty && s.data.all Char.isDigit

/-- The JS regex test `/^\d*\.\d+$/.test(s)`: optional digits, a literal dot,
then one or more digits.  Since `\d` never matches `.`, the anchored match
succeeds exactly when the longest digit prefix is followed by `.` and a
nonempty all-digit tail. -/
def reFloat (s : String) : Bool :=
  match (s.data.span Char.isDigit).2 with
  | '.' :: rest => !rest.isEmpty && rest.all Char.isDigit
  | _ => false

/-- `getDataType` from src/index.js: pick a SQL column type from a sample
value.  `!sampleValue` on a string is truthy exactly for `""`. -/
def getDataType (sampleValue : String) : String :=
  if sampleValue = "" || jsTrim sampleValue = "" then "TEXT"
  else if reAllDigits (jsTrim sampleValue) then "INT"
  else if reFloat (jsTrim sampleValue) then "FLOAT"
  else "TEXT"

/-- A SQL value bound by the server: the SQL null or a text value. -/
inductive SqlValue
  | null
  | str (s : String)
deriving DecidableEq

/-- A parsed CSV record as produced by csv-parse with `columns: true`:
an association list from header name to (trimmed) field string, one entry
per header, in header order. -/
abbrev Record := List (String × String)

/-- JS property read `record[header]`: `some` the stored string when the key
is present, `none` (undefined) otherwise. -/
def recordGet (r : Record) (h : String) : Option String :=
  (r.find? (fun p => p.1 == h)).map (·.2)

/-- JS `record[header] || null` as bound into the insert statement: a
missing or empty field becomes SQL null, anything else its text. -/
def fieldValue (r : Record) (h : String) : SqlValue :=
  match recordGet r h with
  | none => .null
  | some "" => .null
  | some v => .str v

/-- JS `getDataType(records[0][header])`; an absent key reads as undefined,
which the falsy check of `getDataType` sends to TEXT, as it does `""`. -/
def headerType (r0 : Record) (h : String) : String :=
  getDataType ((recordGet r0 h).getD "")

/-- One SQL statement executed against the KEV_Catalog table by
`updateKEVCatalogFromCSV`, in the shapes the source builds. -/
inductive Stmt
  | createKevIfAbsent (columns : List (String × String))
  | truncateKev
  | insertKev (columns : List String) (values : List SqlValue)
deriving DecidableEq

/-- `Object.keys(records[0])` of src/index.js: the header-derived column
order. -/
def headersOf (records : List Record) : List String :=
  match records with
  | [] => []
  | r0 :: _ => r0.map (·.1)

/-- The column/type list of the CREATE TABLE statement built in
src/index.js from the first record. -/
def inferredColumns (records : List Record) : List (String × String) :=
  match records with
  | [] => []
  | r0 :: _ => (r0.map (·.1)).map (fun h => (h, headerType r0 h))

/-- `updateKEVCatalogFromCSV` from src/index.js, from the point where the
downloaded feed has been parsed into records (the download and the
csv-parse call are external collaborators).  Returns the SQL statements it
executes against the store, in order, together with the JS outcome:
`.ok recordCount` for the successful return value, `.error` for the thrown
error. -/
def updateKEVCatalogFromCSV (records : List Record) :
    List Stmt × Except String Nat :=
  match records with
  | [] => ([], .error "No data found in CSV file")
  | r0 :: rest =>
    let headers := r0.map (·.1)
    let createStmt := Stmt.createKevIfAbsent (headers.map (fun h => (h, headerType r0 h)))
    let inserts := (r0 :: rest).map (fun r => Stmt.insertKev headers (headers.map (fieldValue r)))
    (createStmt :: Stmt.truncateKev :: inserts, .ok (r0 :: rest).length)

/-- The KEV_Catalog table: column names with declared types, and rows of
values in column order. -/
structure KevTable where
  columns : List (String × String)
  rows : List (List SqlValue)
deriving DecidableEq

/-- The catalog side of the store: `none` when KEV_Catalog does not exist. -/
abbrev CatalogState := Option KevTable

/-- MySQL semantics of the three statement shapes the loader issues:
CREATE TABLE IF NOT EXISTS is a no-op on an existing table, TRUNCATE
empties the rows, INSERT appends one row. -/
def applyStmt (db : CatalogState) (stmt : Stmt) : CatalogState :=
  match db, stmt with
  | none, .createKevIfAbsent cols => some ⟨cols, []⟩
  | some t, .createKevIfAbsent _ => some t
  | some t, .truncateKev => some { t with rows := [] }
  | none, .truncateKev => none
  | some t, .insertKev _ vals => some { t with rows := t.rows ++ [vals] }
  | none, .insertKev _ _ => none

/-- Run a statement trace against a catalog state, in order. -/
def applyStmts (db : CatalogState) (stmts : List Stmt) : CatalogState :=
  stmts.foldl applyStmt db

/-- A row of the api_keys table created by `createApiKeyTable`: api_key
(UNIQUE NOT NULL), app_name (NOT NULL), created_at, nullable last_used and
is_active with default TRUE.  Timestamps are seconds as natural numbers. -/
structure ApiKeyRecord where
  api_key : String
  app_name : String
  created_at : Nat
  last_used : Option Nat
  is_active : Bool
deriving DecidableEq

/-- An HTTP request as the server reads it: headers, query parameters and
the JSON body, each as name/value pairs. -/
structure Request where
  headers : List (String × String)
  query : List (String × String)
  body : List (String × String)
deriving DecidableEq

/-- A request-parameter read (`req.header(name)`, `req.query.name`,
`req.body.name`): `some` when present, `none` (JS undefined) otherwise. -/
def lookupParam (ps : List (String × String)) (k : String) : Option String :=
  (ps.find? (fun p => p.1 == k)).map (·.2)

/-- JS truthiness of a possibly-undefined string value. -/
def truthy : Option String → Bool
  | none => false
  | some s => s != ""

/-- JS `a || b` over possibly-undefined strings: the whole of `b` when `a`
is falsy, otherwise `a`. -/
def jsOr (a b : Option String) : Option String :=
  if truthy a then a else b

/-- `req.header('x-api-key') || req.query.api_key` from `verifyApiKey`. -/
def extractApiKey (req : Request) : Option String :=
  jsOr (lookupParam req.headers "x-api-key") (lookupParam req.query "api_key")

/-- `req.header('app-name') || req.query.app_name || req.body.app_name`
from `verifyApiKey`. -/
def extractAppName (req : Request) : Option String :=
  jsOr (jsOr (lookupParam req.headers "app-name") (lookupParam req.query "app_name"))
    (lookupParam req.body "app_name")

/-- The WHERE clause of the SELECT in `verifyApiKey`:
`api_key = ? AND is_active = TRUE AND app_name = ?`, with SQL string
equality read as exact comparison. -/
def recordMatches (key name : String) (r : ApiKeyRecord) : Bool :=
  r.api_key == key && r.is_active && r.app_name == name

/-- The UPDATE in `verifyApiKey`:
`SET last_used = CURRENT_TIMESTAMP WHERE api_key = ? AND app_name = ?`
(note: no is_active condition in this WHERE clause). -/
def updateLastUsed (keys : List ApiKeyRecord) (key name : String) (now : Nat) :
    List ApiKeyRecord :=
  keys.map (fun r =>
    if r.api_key == key && r.app_name == name then { r with last_used := some now } else r)

/-- Outcome of the `verifyApiKey` middleware: an HTTP rejection, or
`next()` with the matched row attached as `req.application` together with
the credential table as the downstream handler observes it (after the
last_used update). -/
inductive AuthResult
  | reject (status : Nat) (error : String)
  | proceed (application : ApiKeyRecord) (keys : List ApiKeyRecord)
deriving DecidableEq

/-- `verifyApiKey` from src/index.js.  The SELECT's parameter binding
follows mysql2's documented behaviour of throwing on an undefined bind
parameter ("Bind parameters must not contain undefined"), which the
middleware's catch turns into the 500 response. -/
def verifyApiKey (req : Request) (keys : List ApiKeyRecord) (now : Nat) : AuthResult :=
  match extractApiKey req with
  | none => .reject 401 "API key is required"
  | some k =>
    if k = "" then .reject 401 "API key is required"
    else
      match extractAppName req with
      | none => .reject 500 "Failed to authenticate API key"
      | some n =>
        match keys.filter (recordMatches k n) with
        | [] => .reject 401 "Invalid API key"
        | r0 :: _ => .proceed r0 (updateLastUsed keys k n now)

end KevApi

/-- C1 counterexample: the input `" 123"` (leading space) matches none of the
claim's INTEGER/FLOAT/empty cases, so the claim assigns it TEXT, yet
`getDataType` trims the sample first and returns INT. -/
theorem getDataType_claim_counterexample :
    KevApi.reAllDigits " 123" = false ∧
    KevApi.reFloat " 123" = false ∧
    KevApi.jsTrim " 123" ≠ "" ∧
    " 123" ≠ "" ∧
    KevApi.getDataType " 123" = "INT" := by
  decide

/-- A string matching `^\d*\.\d+$` contains a dot. -/
theorem reFloat_mem_dot (s : String) (h : KevApi.reFloat s = true) :
    ('.' : Char) ∈ s.data := by
  unfold KevApi.reFloat at h
  split at h
  next rest heq =>
    have hsplit := List.takeWhile_append_dropWhile (p := Char.isDigit) (l := s.data)
    rw [List.span_eq_take_drop] at heq
    simp only at heq
    rw [← hsplit, heq]
    simp
  next => exact absurd h (by simp)

/-- The INT and FLOAT regexes of `getDataType` are disjoint: a `^\d*\.\d+$`
match contains a dot, which is not a digit. -/
theorem reFloat_not_allDigits (s : String) (h : KevApi.reFloat s = true) :
    KevApi.reAllDigits s = false := by
  have hmem := reFloat_mem_dot s h
  unfold KevApi.reAllDigits
  cases hall : s.data.all Char.isDigit with
  | true =>
    exfalso
    have := (List.all_eq_true.mp hall) '.' hmem
    simp [Char.isDigit] at this
  | false => simp [hall]

/-- The empty string matches neither regex and trims to itself. -/
theorem jsTrim_empty : KevApi.jsTrim "" = "" := by decide

/-- C1 (amended): `getDataType` first trims the sample; on the trimmed value
it returns INT for `^\d+$` matches, FLOAT for `^\d*\.\d+$` matches, TEXT when
the input is empty or all-whitespace, and TEXT otherwise; the result is
always one of INT, FLOAT, TEXT. -/
theorem getDataType_spec (s : String) :
    (KevApi.reAllDigits (KevApi.jsTrim s) = true →
      KevApi.getDataType s = "INT") ∧
    (KevApi.reFloat (KevApi.jsTrim s) = true →
      KevApi.getDataType s = "FLOAT") ∧
    (KevApi.jsTrim s = "" → KevApi.getDataType s = "TEXT") ∧
    (KevApi.reAllDigits (KevApi.jsTrim s) = false →
      KevApi.reFloat (KevApi.jsTrim s) = false →
      KevApi.getDataType s = "TEXT") ∧
    (KevApi.getDataType s = "INT" ∨ KevApi.getDataType s = "FLOAT" ∨
      KevApi.getDataType s = "TEXT") := by
  unfold KevApi.getDataType
  refine ⟨?_, ?_, ?_, ?_, ?_⟩
  · intro h
    have hne : KevApi.jsTrim s ≠ "" := by
      intro he
      rw [he] at h
      simp [KevApi.reAllDigits] at h
    have hse : s ≠ "" := fun he => hne (by rw [he]; exact jsTrim_empty)
    simp [hne, hse, h]
  · intro h
    have hne : KevApi.jsTrim s ≠ "" := by
      intro he
      rw [he] at h
      simp [KevApi.reFloat] at h
    have hse : s ≠ "" := fun he => hne (by rw [he]; exact jsTrim_empty)
    have hnd := reFloat_not_allDigits _ h
    simp [hne, hse, hnd, h]
  · intro h
    simp [h]
  · intro h1 h2
    by_cases he : s = "" <;> by_cases ht : KevApi.jsTrim s = "" <;> simp [he, ht, h1, h2]
  · by_cases he : s = "" <;> by_cases ht : KevApi.jsTrim s = "" <;>
      by_cases h1 : KevApi.reAllDigits (KevApi.jsTrim s) <;>
      by_cases h2 : KevApi.reFloat (KevApi.jsTrim s) <;>
      simp [he, ht, h1, h2]

/-- Witness for C1's amended theorem at `s = "12.5"`. -/
theorem getDataType_spec_witness :
    KevApi.reFloat (KevApi.jsTrim "12.5") = true ∧ KevApi.getDataType "12.5" = "FLOAT" :=
  ⟨by decide, (getDataType_spec "12.5").2.1 (by decide)⟩

/-- C2: when the downloaded feed parses to zero records, the refresh throws
the "No data found in CSV file" error, executes no SQL statement, and any
prior catalog table — existence, schema and rows — is left exactly as it
was. -/
theorem updateKEV_empty_feed (records : List KevApi.Record)
    (db : KevApi.CatalogState) (h : records.length = 0) :
    (KevApi.updateKEVCatalogFromCSV records).2 = .error "No data found in CSV file" ∧
    (KevApi.updateKEVCatalogFromCSV records).1 = [] ∧
    KevApi.applyStmts db (KevApi.updateKEVCatalogFromCSV records).1 = db := by
  have he : records = [] := List.length_eq_zero.mp h
  subst he
  exact ⟨rfl, rfl, rfl⟩

/-- Witness for C2 at the empty record list over an existing one-row
catalog table. -/
theorem updateKEV_empty_feed_witness :
    ([] : List KevApi.Record).length = 0 ∧
    ((KevApi.updateKEVCatalogFromCSV []).2 = .error "No data found in CSV file" ∧
      (KevApi.updateKEVCatalogFromCSV []).1 = [] ∧
      KevApi.applyStmts (some ⟨[("cveID", "TEXT")], [[KevApi.SqlValue.str "CVE-1"]]⟩)
        (KevApi.updateKEVCatalogFromCSV []).1 =
        some ⟨[("cveID", "TEXT")], [[KevApi.SqlValue.str "CVE-1"]]⟩) :=
  ⟨rfl, updateKEV_empty_feed [] (some ⟨[("cveID", "TEXT")], [[KevApi.SqlValue.str "CVE-1"]]⟩) rfl⟩

/-- C3: a refresh over N ≥ 1 parsed records succeeds with
recordCount = N and executes, in order: one CREATE TABLE IF NOT EXISTS,
one TRUNCATE, then exactly one INSERT per record (N inserts, N + 2
statements in all) in the header-derived column order; and each insert
binds a missing or empty field as SQL null, never as empty text. -/
theorem updateKEV_success (records : List KevApi.Record) (h : records ≠ []) :
    (KevApi.updateKEVCatalogFromCSV records).2 = .ok records.length ∧
    (KevApi.updateKEVCatalogFromCSV records).1 =
      KevApi.Stmt.createKevIfAbsent (KevApi.inferredColumns records) ::
        KevApi.Stmt.truncateKev ::
        records.map (fun r =>
          KevApi.Stmt.insertKev (KevApi.headersOf records)
            ((KevApi.headersOf records).map (KevApi.fieldValue r))) ∧
    (KevApi.updateKEVCatalogFromCSV records).1.length = records.length + 2 ∧
    (∀ r : KevApi.Record, ∀ hd : String,
      KevApi.recordGet r hd = none ∨ KevApi.recordGet r hd = some "" →
        KevApi.fieldValue r hd = KevApi.SqlValue.null) := by
  match records, h with
  | r0 :: rest, _ =>
    refine ⟨rfl, rfl, ?_, ?_⟩
    · simp [KevApi.updateKEVCatalogFromCSV]
    · intro r hd hmiss
      unfold KevApi.fieldValue
      rcases hmiss with hm | hm <;> simp [hm]

/-- Witness for C3 at a two-record feed whose second record has an empty
field. -/
theorem updateKEV_success_witness :
    ([[("cveID", "CVE-1"), ("notes", "x")], [("cveID", "CVE-2"), ("notes", "")]] :
        List KevApi.Record) ≠ [] ∧
    (KevApi.updateKEVCatalogFromCSV
        [[("cveID", "CVE-1"), ("notes", "x")], [("cveID", "CVE-2"), ("notes", "")]]).2 =
      .ok 2 :=
  ⟨by decide,
    (updateKEV_success
      [[("cveID", "CVE-1"), ("notes", "x")], [("cveID", "CVE-2"), ("notes", "")]]
      (by decide)).1⟩

/-- Unfolding of the WHERE clause `api_key = ? AND is_active = TRUE AND
app_name = ?` as a proposition. -/
theorem recordMatches_iff (k n : String) (r : KevApi.ApiKeyRecord) :
    KevApi.recordMatches k n r = true ↔
      (r.api_key = k ∧ r.app_name = n ∧ r.is_active = true) := by
  unfold KevApi.recordMatches
  simp only [Bool.and_eq_true, beq_iff_eq]
  tauto

/-- When a nonempty key and an app name are presented, `verifyApiKey`
reduces to the credential-store lookup. -/
theorem verifyApiKey_reduce (req : KevApi.Request) (keys : List KevApi.ApiKeyRecord)
    (now : Nat) (k n : String) (hk : KevApi.extractApiKey req = some k)
    (hk0 : k ≠ "") (hn : KevApi.extractAppName req = some n) :
    KevApi.verifyApiKey req keys now =
      match keys.filter (KevApi.recordMatches k n) with
      | [] => .reject 401 "Invalid API key"
      | r0 :: _ => .proceed r0 (KevApi.updateLastUsed keys k n now) := by
  unfold KevApi.verifyApiKey
  rw [hk]
  simp [hk0, hn]

/-- C4: with a key and an app name presented, the gate admits the request
iff the store holds a record whose key, app name (exact, case-sensitive)
and active flag all match; every lookup miss yields the single
401 "Invalid API key" response; and on success the matched record is the
one attached to the request. -/
theorem verifyApiKey_authenticates (req : KevApi.Request)
    (keys : List KevApi.ApiKeyRecord) (now : Nat) (k n : String)
    (hk : KevApi.extractApiKey req = some k) (hk0 : k ≠ "")
    (hn : KevApi.extractAppName req = some n) :
    ((∃ app keys2, KevApi.verifyApiKey req keys now = .proceed app keys2) ↔
      ∃ r ∈ keys, r.api_key = k ∧ r.app_name = n ∧ r.is_active = true) ∧
    ((¬ ∃ r ∈ keys, r.api_key = k ∧ r.app_name = n ∧ r.is_active = true) →
      KevApi.verifyApiKey req keys now = .reject 401 "Invalid API key") ∧
    (∀ app keys2, KevApi.verifyApiKey req keys now = .proceed app keys2 →
      app ∈ keys ∧ app.api_key = k ∧ app.app_name = n ∧ app.is_active = true) := by
  rw [verifyApiKey_reduce req keys now k n hk hk0 hn]
  cases hf : keys.filter (KevApi.recordMatches k n) with
  | nil =>
    have hnone : ∀ r ∈ keys, ¬(r.api_key = k ∧ r.app_name = n ∧ r.is_active = true) := by
      intro r hr hc
      exact (List.filter_eq_nil_iff.mp hf r hr) ((recordMatches_iff k n r).mpr hc)
    refine ⟨?_, ?_, ?_⟩
    · constructor
      · rintro ⟨app, keys2, habs⟩
        exact absurd habs (by simp)
      · rintro ⟨r, hr, hc⟩
        exact absurd hc (hnone r hr)
    · intro _
      rfl
    · intro app keys2 habs
      exact absurd habs (by simp)
  | cons r0 rs =>
    have hr0 : r0 ∈ keys ∧ KevApi.recordMatches k n r0 = true :=
      List.mem_filter.mp (by rw [hf]; exact List.mem_cons_self _ _)
    have hp := (recordMatches_iff k n r0).mp hr0.2
    refine ⟨?_, ?_, ?_⟩
    · constructor
      · intro _
        exact ⟨r0, hr0.1, hp⟩
      · intro _
        exact ⟨r0, KevApi.updateLastUsed keys k n now, rfl⟩
    · intro hno
      exact absurd ⟨r0, hr0.1, hp⟩ hno
    · intro app keys2 habs
      injection habs with h1 h2
      subst h1
      exact ⟨hr0.1, hp.1, hp.2.1, hp.2.2⟩

/-- Witness for C4 over a one-record store that matches the presented
credentials. -/
theorem verifyApiKey_authenticates_witness :
    KevApi.extractApiKey ⟨[("x-api-key", "key1"), ("app-name", "app1")], [], []⟩ = some "key1" ∧
    ("key1" : String) ≠ "" ∧
    KevApi.extractAppName ⟨[("x-api-key", "key1"), ("app-name", "app1")], [], []⟩ = some "app1" ∧
    (((∃ app keys2,
        KevApi.verifyApiKey ⟨[("x-api-key", "key1"), ("app-name", "app1")], [], []⟩
          [⟨"key1", "app1", 0, none, true⟩] 5 = .proceed app keys2) ↔
      ∃ r ∈ [(⟨"key1", "app1", 0, none, true⟩ : KevApi.ApiKeyRecord)],
        r.api_key = "key1" ∧ r.app_name = "app1" ∧ r.is_active = true) ∧
    ((¬ ∃ r ∈ [(⟨"key1", "app1", 0, none, true⟩ : KevApi.ApiKeyRecord)],
        r.api_key = "key1" ∧ r.app_name = "app1" ∧ r.is_active = true) →
      KevApi.verifyApiKey ⟨[("x-api-key", "key1"), ("app-name", "app1")], [], []⟩
        [⟨"key1", "app1", 0, none, true⟩] 5 = .reject 401 "Invalid API key") ∧
    (∀ app keys2,
      KevApi.verifyApiKey ⟨[("x-api-key", "key1"), ("app-name", "app1")], [], []⟩
        [⟨"key1", "app1", 0, none, true⟩] 5 = .proceed app keys2 →
      app ∈ [(⟨"key1", "app1", 0, none, true⟩ : KevApi.ApiKeyRecord)] ∧
        app.api_key = "key1" ∧ app.app_name = "app1" ∧ app.is_active = true)) :=
  ⟨by decide, by decide, by decide,
    verifyApiKey_authenticates ⟨[("x-api-key", "key1"), ("app-name", "app1")], [], []⟩
      [⟨"key1", "app1", 0, none, true⟩] 5 "key1" "app1" (by decide) (by decide) (by decide)⟩

/-- C5: when no API key is presented (absent or empty in both the
x-api-key header and the api_key query parameter), the gate rejects with
401 "API key is required", and the outcome is independent of the
credential store (no lookup can influence it). -/
theorem verifyApiKey_no_key (req : KevApi.Request)
    (keys keys2 : List KevApi.ApiKeyRecord) (now now2 : Nat)
    (h : KevApi.truthy (KevApi.extractApiKey req) = false) :
    KevApi.verifyApiKey req keys now = .reject 401 "API key is required" ∧
    KevApi.verifyApiKey req keys now = KevApi.verifyApiKey req keys2 now2 := by
  have hmain : ∀ (ks : List KevApi.ApiKeyRecord) (t : Nat),
      KevApi.verifyApiKey req ks t = .reject 401 "API key is required" := by
    intro ks t
    unfold KevApi.verifyApiKey
    cases hk : KevApi.extractApiKey req with
    | none => rfl
    | some s =>
      rw [hk] at h
      simp only [KevApi.truthy, bne_iff_ne, ne_eq] at h
      have hs : s = "" := by simpa using h
      simp [hs]
  exact ⟨hmain keys now, (hmain keys now).trans (hmain keys2 now2).symm⟩

/-- Witness for C5: a request with no credentials at all, against two
different stores. -/
theorem verifyApiKey_no_key_witness :
    KevApi.truthy (KevApi.extractApiKey ⟨[], [], []⟩) = false ∧
    (KevApi.verifyApiKey ⟨[], [], []⟩ [] 0 = .reject 401 "API key is required" ∧
      KevApi.verifyApiKey ⟨[], [], []⟩ [] 0 =
        KevApi.verifyApiKey ⟨[], [], []⟩ [⟨"key1", "app1", 0, none, true⟩] 9) :=
  ⟨by decide, verifyApiKey_no_key ⟨[], [], []⟩ [] [⟨"key1", "app1", 0, none, true⟩] 0 9 (by decide)⟩

/-- A falsy presented key short-circuits the gate to the 401 response. -/
theorem verifyApiKey_falsy_key (req : KevApi.Request)
    (keys : List KevApi.ApiKeyRecord) (now : Nat)
    (h : KevApi.truthy (KevApi.extractApiKey req) = false) :
    KevApi.verifyApiKey req keys now = .reject 401 "API key is required" := by
  unfold KevApi.verifyApiKey
  cases hk : KevApi.extractApiKey req with
  | none => rfl
  | some s =>
    rw [hk] at h
    simp only [KevApi.truthy, bne_iff_ne, ne_eq] at h
    have hs : s = "" := by simpa using h
    simp [hs]

/-- A nonempty key with no app name anywhere: the undefined bind parameter
makes the SELECT throw, and the catch answers 500. -/
theorem verifyApiKey_name_undefined (req : KevApi.Request)
    (keys : List KevApi.ApiKeyRecord) (now : Nat) (k : String)
    (hk : KevApi.extractApiKey req = some k) (hk0 : k ≠ "")
    (hn : KevApi.extractAppName req = none) :
    KevApi.verifyApiKey req keys now = .reject 500 "Failed to authenticate API key" := by
  unfold KevApi.verifyApiKey
  rw [hk]
  simp [hk0, hn]

/-- Inversion of a successful pass through the gate: the attached record
came from the store, matched the presented key and app name exactly, was
active, and the store the handler sees is the one after the last_used
UPDATE. -/
theorem verifyApiKey_proceed_inv (req : KevApi.Request)
    (keys : List KevApi.ApiKeyRecord) (now : Nat) (app : KevApi.ApiKeyRecord)
    (keys2 : List KevApi.ApiKeyRecord)
    (h : KevApi.verifyApiKey req keys now = .proceed app keys2) :
    ∃ k n, KevApi.extractApiKey req = some k ∧ KevApi.extractAppName req = some n ∧
      app ∈ keys ∧ app.api_key = k ∧ app.app_name = n ∧ app.is_active = true ∧
      keys2 = KevApi.updateLastUsed keys k n now := by
  cases hke : KevApi.extractApiKey req with
  | none =>
    rw [verifyApiKey_falsy_key req keys now (by rw [hke]; rfl)] at h
    exact absurd h (by simp)
  | some k =>
    by_cases hk0 : k = ""
    · rw [verifyApiKey_falsy_key req keys now (by rw [hke, hk0]; decide)] at h
      exact absurd h (by simp)
    · cases hne : KevApi.extractAppName req with
      | none =>
        rw [verifyApiKey_name_undefined req keys now k hke hk0 hne] at h
        exact absurd h (by simp)
      | some n =>
        rw [verifyApiKey_reduce req keys now k n hke hk0 hne] at h
        cases hf : keys.filter (KevApi.recordMatches k n) with
        | nil =>
          rw [hf] at h
          have h2 : KevApi.AuthResult.reject 401 "Invalid API key" =
              KevApi.AuthResult.proceed app keys2 := h
          exact absurd h2 (by simp)
        | cons r0 rs =>
          rw [hf] at h
          have h2 : KevApi.AuthResult.proceed r0 (KevApi.updateLastUsed keys k n now) =
              KevApi.AuthResult.proceed app keys2 := h
          injection h2 with ha hb
          subst ha
          have hr0 : r0 ∈ keys ∧ KevApi.recordMatches k n r0 = true :=
            List.mem_filter.mp (by rw [hf]; exact List.mem_cons_self _ _)
          have hp := (recordMatches_iff k n r0).mp hr0.2
          exact ⟨k, n, rfl, rfl, hr0.1, hp.1, hp.2.1, hp.2.2, hb.symm⟩

/-- Position-wise description of the last_used UPDATE. -/
theorem updateLastUsed_get (keys : List KevApi.ApiKeyRecord) (key name : String)
    (now : Nat) (i : Nat) (hi : i < keys.length)
    (hi2 : i < (KevApi.updateLastUsed keys key name now).length) :
    (KevApi.updateLastUsed keys key name now).get ⟨i, hi2⟩ =
      (if (keys.get ⟨i, hi⟩).api_key == key && (keys.get ⟨i, hi⟩).app_name == name
        then { keys.get ⟨i, hi⟩ with last_used := some now }
        else keys.get ⟨i, hi⟩) := by
  unfold KevApi.updateLastUsed
  simp only [List.get_eq_getElem]
  rw [List.getElem_map]

/-- C6: on every successful authentication the store the downstream
handler observes is the one after the last_used UPDATE: every record
matching the attached application's key and name has last_used set to the
current time, and no record's timestamp decreases (given that stored
timestamps never exceed the clock). -/
theorem verifyApiKey_monotone_last_used (req : KevApi.Request)
    (keys : List KevApi.ApiKeyRecord) (now : Nat) (app : KevApi.ApiKeyRecord)
    (keys2 : List KevApi.ApiKeyRecord)
    (h : KevApi.verifyApiKey req keys now = .proceed app keys2)
    (hclock : ∀ r ∈ keys, ∀ t, r.last_used = some t → t ≤ now) :
    keys2 = KevApi.updateLastUsed keys app.api_key app.app_name now ∧
    keys2.length = keys.length ∧
    app ∈ keys ∧
    (∀ i, ∀ hi : i < keys.length, ∀ hi2 : i < keys2.length,
      ((keys.get ⟨i, hi⟩).api_key = app.api_key →
        (keys.get ⟨i, hi⟩).app_name = app.app_name →
        (keys2.get ⟨i, hi2⟩).last_used = some now) ∧
      (∀ t t2, (keys.get ⟨i, hi⟩).last_used = some t →
        (keys2.get ⟨i, hi2⟩).last_used = some t2 → t ≤ t2)) := by
  obtain ⟨k, n, hke, hne, happ, hak, han, hact, hkeys2⟩ :=
    verifyApiKey_proceed_inv req keys now app keys2 h
  subst hkeys2
  rw [hak, han]
  refine ⟨rfl, ?_, happ, ?_⟩
  · unfold KevApi.updateLastUsed
    exact List.length_map _ _
  · intro i hi hi2
    rw [updateLastUsed_get keys k n now i hi hi2]
    by_cases hcond :
        ((keys.get ⟨i, hi⟩).api_key == k && (keys.get ⟨i, hi⟩).app_name == n) = true
    · rw [if_pos hcond]
      refine ⟨fun _ _ => rfl, ?_⟩
      intro t t2 ht ht2
      simp only [Option.some.injEq] at ht2
      subst ht2
      exact hclock _ (List.get_mem keys i hi) t ht
    · rw [if_neg hcond]
      refine ⟨?_, ?_⟩
      · intro h1 h2
        exact absurd (by simp only [Bool.and_eq_true, beq_iff_eq]; exact ⟨h1, h2⟩) hcond
      · intro t t2 ht ht2
        rw [ht] at ht2
        simp only [Option.some.injEq] at ht2
        exact Nat.le_of_eq ht2

/-- Witness for C6: a matching one-record store whose last_used 3 is
raised to the clock value 5 before the handler runs. -/
theorem verifyApiKey_monotone_last_used_witness :
    KevApi.verifyApiKey ⟨[("x-api-key", "key1"), ("app-name", "app1")], [], []⟩
      [⟨"key1", "app1", 0, some 3, true⟩] 5 =
      .proceed ⟨"key1", "app1", 0, some 3, true⟩ [⟨"key1", "app1", 0, some 5, true⟩] ∧
    ((∀ r ∈ [(⟨"key1", "app1", 0, some 3, true⟩ : KevApi.ApiKeyRecord)],
        ∀ t, r.last_used = some t → t ≤ 5) ∧
    ([⟨"key1", "app1", 0, some 5, true⟩] =
      KevApi.updateLastUsed [⟨"key1", "app1", 0, some 3, true⟩]
        (⟨"key1", "app1", 0, some 3, true⟩ : KevApi.ApiKeyRecord).api_key
        (⟨"key1", "app1", 0, some 3, true⟩ : KevApi.ApiKeyRecord).app_name 5 ∧
      ([(⟨"key1", "app1", 0, some 5, true⟩ : KevApi.ApiKeyRecord)]).length =
        ([(⟨"key1", "app1", 0, some 3, true⟩ : KevApi.ApiKeyRecord)]).length ∧
      (⟨"key1", "app1", 0, some 3, true⟩ : KevApi.ApiKeyRecord) ∈
        [(⟨"key1", "app1", 0, some 3, true⟩ : KevApi.ApiKeyRecord)] ∧
      (∀ i, ∀ hi : i < ([(⟨"key1", "app1", 0, some 3, true⟩ : KevApi.ApiKeyRecord)]).length,
        ∀ hi2 : i < ([(⟨"key1", "app1", 0, some 5, true⟩ : KevApi.ApiKeyRecord)]).length,
        ((([(⟨"key1", "app1", 0, some 3, true⟩ : KevApi.ApiKeyRecord)]).get ⟨i, hi⟩).api_key =
            (⟨"key1", "app1", 0, some 3, true⟩ : KevApi.ApiKeyRecord).api_key →
          (([(⟨"key1", "app1", 0, some 3, true⟩ : KevApi.ApiKeyRecord)]).get ⟨i, hi⟩).app_name =
            (⟨"key1", "app1", 0, some 3, true⟩ : KevApi.ApiKeyRecord).app_name →
          (([(⟨"key1", "app1", 0, some 5, true⟩ : KevApi.ApiKeyRecord)]).get ⟨i, hi2⟩).last_used =
            some 5) ∧
        (∀ t t2,
          (([(⟨"key1", "app1", 0, some 3, true⟩ : KevApi.ApiKeyRecord)]).get ⟨i, hi⟩).last_used =
            some t →
          (([(⟨"key1", "app1", 0, some 5, true⟩ : KevApi.ApiKeyRecord)]).get ⟨i, hi2⟩).last_used =
            some t2 → t ≤ t2)))) :=
  ⟨by decide,
    (fun hclock =>
      ⟨hclock,
        verifyApiKey_monotone_last_used
          ⟨[("x-api-key", "key1"), ("app-name", "app1")], [], []⟩
          [⟨"key1", "app1", 0, some 3, true⟩] 5
          ⟨"key1", "app1", 0, some 3, true⟩ [⟨"key1", "app1", 0, some 5, true⟩]
          (by decide) hclock⟩)
      (by
        intro r hr t ht
        have hr2 : r = ⟨"key1", "app1", 0, some 3, true⟩ := List.mem_singleton.mp hr
        subst hr2
        simp only [Option.some.injEq] at ht
        omega)⟩

/-- C10: a request with a key but no app name in the app-name header, the
app_name query parameter or the app_name body field is never admitted:
the undefined bind parameter makes the lookup throw, its rejection is
caught, and the gate answers 500 "Failed to authenticate API key" rather
than 401. -/
theorem verifyApiKey_no_app_name (req : KevApi.Request)
    (keys : List KevApi.ApiKeyRecord) (now : Nat) (k : String)
    (hk : KevApi.extractApiKey req = some k) (hk0 : k ≠ "")
    (hh : KevApi.lookupParam req.headers "app-name" = none)
    (hq : KevApi.lookupParam req.query "app_name" = none)
    (hb : KevApi.lookupParam req.body "app_name" = none) :
    KevApi.verifyApiKey req keys now = .reject 500 "Failed to authenticate API key" ∧
    ∀ app keys2, KevApi.verifyApiKey req keys now ≠ .proceed app keys2 := by
  have hname : KevApi.extractAppName req = none := by
    unfold KevApi.extractAppName KevApi.jsOr
    rw [hh, hq, hb]
    rfl
  have hmain := verifyApiKey_name_undefined req keys now k hk hk0 hname
  refine ⟨hmain, ?_⟩
  intro app keys2 hc
  rw [hmain] at hc
  exact absurd hc (by simp)

/-- Witness for C10: a key in the x-api-key header and no app name
anywhere. -/
theorem verifyApiKey_no_app_name_witness :
    KevApi.extractApiKey ⟨[("x-api-key", "key1")], [], []⟩ = some "key1" ∧
    ("key1" : String) ≠ "" ∧
    KevApi.lookupParam (KevApi.Request.headers ⟨[("x-api-key", "key1")], [], []⟩) "app-name" = none ∧
    KevApi.lookupParam (KevApi.Request.query ⟨[("x-api-key", "key1")], [], []⟩) "app_name" = none ∧
    KevApi.lookupParam (KevApi.Request.body ⟨[("x-api-key", "key1")], [], []⟩) "app_name" = none ∧
    (KevApi.verifyApiKey ⟨[("x-api-key", "key1")], [], []⟩
        [⟨"key1", "app1", 0, none, true⟩] 4 =
      .reject 500 "Failed to authenticate API key" ∧
    ∀ app keys2,
      KevApi.verifyApiKey ⟨[("x-api-key", "key1")], [], []⟩
        [⟨"key1", "app1", 0, none, true⟩] 4 ≠ .proceed app keys2) :=
  ⟨by decide, by decide, by decide, by decide, by decide,
    verifyApiKey_no_app_name ⟨[("x-api-key", "key1")], [], []⟩
      [⟨"key1", "app1", 0, none, true⟩] 4 "key1"
      (by decide) (by decide) (by decide) (by decide) (by decide)⟩

namespace KevApi

/-- One hex digit as Buffer.toString('hex') renders it: 0-9 then a-f. -/
def hexDigit (n : Nat) : Char :=
  if n < 10 then Char.ofNat (48 + n) else Char.ofNat (87 + n)

/-- One byte rendered as two lowercase hex digits. -/
def byteToHex (b : Nat) : List Char :=
  [hexDigit (b / 16), hexDigit (b % 16)]

/-- `generateApiKey` from src/index.js:
`crypto.randomBytes(32).toString('hex')`.  The 32 random bytes are passed
in explicitly; their cryptographic source is an external collaborator. -/
def generateApiKey (bytes : List Nat) : String :=
  ⟨(bytes.map byteToHex).flatten⟩

/-- Membership in the lowercase hex alphabet 0-9a-f. -/
def isLowerHexChar (c : Char) : Bool :=
  c.isDigit || ('a' ≤ c && c ≤ 'f')

/-- Response of POST /api-keys: 201 with exactly the fields
{app_name, apiKey}, or the 500 error branch. -/
inductive CreateKeyResponse
  | created (app_name : String) (apiKey : String)
  | serverError
deriving DecidableEq

/-- The POST /api-keys handler from src/index.js.  It reads the
application name from `req.headers['app-name']` only, generates a key and
INSERTs (api_key, app_name); created_at and is_active take the table
defaults CURRENT_TIMESTAMP and TRUE, last_used NULL.  The route has no
verifyApiKey middleware and reads no credential.  An undefined app name
makes mysql2 reject the bind parameters and a duplicate key violates the
UNIQUE constraint; either thrown error reaches the catch, which answers
500. -/
def postApiKeys (req : Request) (keys : List ApiKeyRecord) (bytes : List Nat)
    (now : Nat) : List ApiKeyRecord × CreateKeyResponse :=
  match lookupParam req.headers "app-name" with
  | none => (keys, .serverError)
  | some n =>
    if keys.any (fun r => r.api_key == generateApiKey bytes) then (keys, .serverError)
    else (keys ++ [⟨generateApiKey bytes, n, now, none, true⟩],
      .created n (generateApiKey bytes))

end KevApi

/-- The hex rendering is two characters per byte. -/
theorem generateApiKey_length (bytes : List Nat) :
    (KevApi.generateApiKey bytes).length = 2 * bytes.length := by
  show ((bytes.map KevApi.byteToHex).flatten).length = 2 * bytes.length
  induction bytes with
  | nil => rfl
  | cons b bs ih =>
    simp only [List.map_cons, List.flatten_cons, List.length_append, ih,
      List.length_cons, KevApi.byteToHex, List.length_nil]
    omega

/-- Every hex digit of a nibble is in 0-9a-f. -/
theorem hexDigit_lower : ∀ n, n < 16 → KevApi.isLowerHexChar (KevApi.hexDigit n) = true := by
  decide

/-- All characters of the hex rendering of bytes are lowercase hex. -/
theorem generateApiKey_chars (bytes : List Nat) (hb : ∀ b ∈ bytes, b < 256) :
    ∀ c ∈ (KevApi.generateApiKey bytes).data, KevApi.isLowerHexChar c = true := by
  intro c hc
  have hc2 : c ∈ (bytes.map KevApi.byteToHex).flatten := hc
  obtain ⟨l, hl, hcl⟩ := List.mem_flatten.mp hc2
  obtain ⟨b, hbmem, rfl⟩ := List.mem_map.mp hl
  have hb2 := hb b hbmem
  unfold KevApi.byteToHex at hcl
  simp only [List.mem_cons, List.mem_singleton, List.not_mem_nil, or_false] at hcl
  rcases hcl with rfl | rfl
  · exact hexDigit_lower (b / 16) (by omega)
  · exact hexDigit_lower (b % 16) (by omega)

/-- With a present app-name header and no key collision, the endpoint
appends the new record and answers 201. -/
theorem postApiKeys_reduce (req : KevApi.Request) (keys : List KevApi.ApiKeyRecord)
    (bytes : List Nat) (now : Nat) (n : String)
    (hname : KevApi.lookupParam req.headers "app-name" = some n)
    (hfresh : ∀ r ∈ keys, r.api_key ≠ KevApi.generateApiKey bytes) :
    KevApi.postApiKeys req keys bytes now =
      (keys ++ [⟨KevApi.generateApiKey bytes, n, now, none, true⟩],
        .created n (KevApi.generateApiKey bytes)) := by
  unfold KevApi.postApiKeys
  rw [hname]
  have hany : keys.any (fun r => r.api_key == KevApi.generateApiKey bytes) = false := by
    rw [List.any_eq_false]
    intro r hr
    simp only [beq_iff_eq]
    exact hfresh r hr
  simp [hany]

/-- C7: issuing a key produces a token of exactly 64 lowercase hex
characters rendered from the 32 random bytes (256 bits of entropy),
inserts one new credential record that carries the token and is active,
and returns the token in the 201 response. -/
theorem issueApiKey_spec (req : KevApi.Request) (keys : List KevApi.ApiKeyRecord)
    (bytes : List Nat) (now : Nat) (n : String)
    (hlen : bytes.length = 32) (hrange : ∀ b ∈ bytes, b < 256)
    (hname : KevApi.lookupParam req.headers "app-name" = some n)
    (hfresh : ∀ r ∈ keys, r.api_key ≠ KevApi.generateApiKey bytes) :
    (KevApi.generateApiKey bytes).length = 64 ∧
    (∀ c ∈ (KevApi.generateApiKey bytes).data, KevApi.isLowerHexChar c = true) ∧
    (KevApi.postApiKeys req keys bytes now).2 =
      .created n (KevApi.generateApiKey bytes) ∧
    (KevApi.postApiKeys req keys bytes now).1 =
      keys ++ [⟨KevApi.generateApiKey bytes, n, now, none, true⟩] ∧
    (∀ r ∈ (KevApi.postApiKeys req keys bytes now).1,
      r.api_key = KevApi.generateApiKey bytes → r.is_active = true) := by
  have hred := postApiKeys_reduce req keys bytes now n hname hfresh
  refine ⟨?_, generateApiKey_chars bytes hrange, ?_, ?_, ?_⟩
  · rw [generateApiKey_length, hlen]
  · rw [hred]
  · rw [hred]
  · rw [hred]
    intro r hr hkey
    rcases List.mem_append.mp hr with hin | hnew
    · exact absurd hkey (hfresh r hin)
    · rw [List.mem_singleton.mp hnew]

/-- Witness for C7 at 32 zero bytes, an empty store and the app name
"app1" in the header. -/
theorem issueApiKey_spec_witness :
    (List.replicate 32 0).length = 32 ∧
    (∀ b ∈ List.replicate 32 0, b < 256) ∧
    KevApi.lookupParam (KevApi.Request.headers ⟨[("app-name", "app1")], [], []⟩) "app-name" =
      some "app1" ∧
    (∀ r ∈ ([] : List KevApi.ApiKeyRecord),
      r.api_key ≠ KevApi.generateApiKey (List.replicate 32 0)) ∧
    ((KevApi.generateApiKey (List.replicate 32 0)).length = 64 ∧
    (∀ c ∈ (KevApi.generateApiKey (List.replicate 32 0)).data,
      KevApi.isLowerHexChar c = true) ∧
    (KevApi.postApiKeys ⟨[("app-name", "app1")], [], []⟩ [] (List.replicate 32 0) 0).2 =
      .created "app1" (KevApi.generateApiKey (List.replicate 32 0)) ∧
    (KevApi.postApiKeys ⟨[("app-name", "app1")], [], []⟩ [] (List.replicate 32 0) 0).1 =
      [] ++ [⟨KevApi.generateApiKey (List.replicate 32 0), "app1", 0, none, true⟩] ∧
    (∀ r ∈ (KevApi.postApiKeys ⟨[("app-name", "app1")], [], []⟩ [] (List.replicate 32 0) 0).1,
      r.api_key = KevApi.generateApiKey (List.replicate 32 0) → r.is_active = true)) :=
  ⟨by decide, by decide, by decide, by decide,
    issueApiKey_spec ⟨[("app-name", "app1")], [], []⟩ [] (List.replicate 32 0) 0 "app1"
      (by decide) (by decide) (by decide) (by decide)⟩

/-- C8 counterexample: a request supplying the application name only in
the JSON body (no app-name header) does not get a 201: the handler reads
the header only, the INSERT's bind parameters contain undefined, and the
response is the 500 branch with no record inserted. -/
theorem postApiKeys_body_only_counterexample :
    KevApi.lookupParam (KevApi.Request.body ⟨[], [], [("app_name", "app1")]⟩) "app_name" =
      some "app1" ∧
    KevApi.postApiKeys ⟨[], [], [("app_name", "app1")]⟩ [] (List.replicate 32 0) 0 =
      ([], KevApi.CreateKeyResponse.serverError) := by
  decide

/-- C8 (amended): POST /api-keys requires no authentication — the
response depends only on the app-name header value, never on a presented
credential — it accepts the application name via the app-name header only
(a body-only app_name reaches the 500 branch instead), and on success it
responds 201 with exactly the fields {app_name, apiKey}. -/
theorem postApiKeys_spec (req req2 : KevApi.Request)
    (keys : List KevApi.ApiKeyRecord) (bytes : List Nat) (now : Nat) (n : String)
    (hsame : KevApi.lookupParam req.headers "app-name" =
      KevApi.lookupParam req2.headers "app-name")
    (hname : KevApi.lookupParam req.headers "app-name" = some n)
    (hfresh : ∀ r ∈ keys, r.api_key ≠ KevApi.generateApiKey bytes) :
    KevApi.postApiKeys req keys bytes now = KevApi.postApiKeys req2 keys bytes now ∧
    (KevApi.postApiKeys req keys bytes now).2 =
      KevApi.CreateKeyResponse.created n (KevApi.generateApiKey bytes) := by
  have h1 := postApiKeys_reduce req keys bytes now n hname hfresh
  have h2 := postApiKeys_reduce req2 keys bytes now n (by rw [← hsame]; exact hname) hfresh
  rw [h1, h2]
  exact ⟨rfl, rfl⟩

/-- Witness for C8's amended theorem: the same app-name header with and
without an x-api-key credential, over an empty store. -/
theorem postApiKeys_spec_witness :
    KevApi.lookupParam (KevApi.Request.headers ⟨[("app-name", "app1")], [], []⟩) "app-name" =
      KevApi.lookupParam
        (KevApi.Request.headers ⟨[("app-name", "app1"), ("x-api-key", "bogus")], [], []⟩)
        "app-name" ∧
    KevApi.lookupParam (KevApi.Request.headers ⟨[("app-name", "app1")], [], []⟩) "app-name" =
      some "app1" ∧
    (∀ r ∈ ([] : List KevApi.ApiKeyRecord),
      r.api_key ≠ KevApi.generateApiKey (List.replicate 32 0)) ∧
    (KevApi.postApiKeys ⟨[("app-name", "app1")], [], []⟩ [] (List.replicate 32 0) 1 =
      KevApi.postApiKeys ⟨[("app-name", "app1"), ("x-api-key", "bogus")], [], []⟩ []
        (List.replicate 32 0) 1 ∧
    (KevApi.postApiKeys ⟨[("app-name", "app1")], [], []⟩ [] (List.replicate 32 0) 1).2 =
      KevApi.CreateKeyResponse.created "app1" (KevApi.generateApiKey (List.replicate 32 0))) :=
  ⟨by decide, by decide, by decide,
    postApiKeys_spec ⟨[("app-name", "app1")], [], []⟩
      ⟨[("app-name", "app1"), ("x-api-key", "bogus")], [], []⟩ [] (List.replicate 32 0) 1 "app1"
      (by decide) (by decide) (by decide)⟩

namespace KevApi

/-- A JSON value as `res.json` serialises it. -/
inductive Json
  | num (n : Nat)
  | str (s : String)
  | arr (elems : List Json)
  | obj (fields : List (String × Json))

/-- Result of a route: a JSON body (status 200) or an error status. -/
inductive HandlerResult
  | ok (body : Json)
  | err (status : Nat)

/-- `SELECT COUNT(cveID) as count FROM KEV_Catalog`: SQL COUNT over a
column counts its non-null values only; the query fails when the table or
the cveID column is missing. -/
def countCveIdRows (db : CatalogState) : Option Nat :=
  match db with
  | none => none
  | some t =>
    match t.columns.findIdx? (fun c => c.1 == "cveID") with
    | none => none
    | some i =>
      some ((t.rows.filter (fun row => row.getD i SqlValue.null != SqlValue.null)).length)

/-- The GET /count handler body from src/index.js: `res.json(rows)`, where
rows is the one-element result set of the COUNT query, so the body is a
one-element array containing the {count} object; a query error is the
500 branch. -/
def countHandler (db : CatalogState) : HandlerResult :=
  match countCveIdRows db with
  | none => .err 500
  | some k => .ok (.arr [.obj [("count", .num k)]])

/-- The GET /count route: the verifyApiKey middleware, then the handler. -/
def getCountRoute (req : Request) (keys : List ApiKeyRecord) (now : Nat)
    (db : CatalogState) : HandlerResult :=
  match verifyApiKey req keys now with
  | .reject status _ => .err status
  | .proceed _ _ => countHandler db

end KevApi

/-- C9 counterexample: for an authenticated request over a one-row catalog
whose cveID is null, the response body is the one-element array
[{count: 0}] — neither the bare object shape nor the table's row count 1
that the claim requires. -/
theorem getCount_counterexample :
    (⟨[("cveID", "TEXT")], [[KevApi.SqlValue.null]]⟩ : KevApi.KevTable).rows.length = 1 ∧
    KevApi.getCountRoute ⟨[("x-api-key", "key1"), ("app-name", "app1")], [], []⟩
      [⟨"key1", "app1", 0, none, true⟩] 5
      (some ⟨[("cveID", "TEXT")], [[KevApi.SqlValue.null]]⟩) =
      KevApi.HandlerResult.ok
        (KevApi.Json.arr [KevApi.Json.obj [("count", KevApi.Json.num 0)]]) ∧
    KevApi.getCountRoute ⟨[("x-api-key", "key1"), ("app-name", "app1")], [], []⟩
      [⟨"key1", "app1", 0, none, true⟩] 5
      (some ⟨[("cveID", "TEXT")], [[KevApi.SqlValue.null]]⟩) ≠
      KevApi.HandlerResult.ok (KevApi.Json.obj [("count", KevApi.Json.num 1)]) := by
  have hcomp :
      KevApi.getCountRoute ⟨[("x-api-key", "key1"), ("app-name", "app1")], [], []⟩
        [⟨"key1", "app1", 0, none, true⟩] 5
        (some ⟨[("cveID", "TEXT")], [[KevApi.SqlValue.null]]⟩) =
        KevApi.HandlerResult.ok
          (KevApi.Json.arr [KevApi.Json.obj [("count", KevApi.Json.num 0)]]) := by
    rfl
  refine ⟨rfl, hcomp, ?_⟩
  rw [hcomp]
  intro h
  exact KevApi.Json.noConfusion (KevApi.HandlerResult.ok.inj h)

/-- C9 (amended): for every authenticated request, GET /count responds
with the one-element JSON array [{count}], where count is the number of
catalog rows whose cveID value is non-null. -/
theorem getCount_spec (req : KevApi.Request) (keys keys2 : List KevApi.ApiKeyRecord)
    (now : Nat) (app : KevApi.ApiKeyRecord) (db : KevApi.CatalogState)
    (t : KevApi.KevTable) (i : Nat)
    (hauth : KevApi.verifyApiKey req keys now = .proceed app keys2)
    (hdb : db = some t)
    (hcol : t.columns.findIdx? (fun c => c.1 == "cveID") = some i) :
    KevApi.getCountRoute req keys now db =
      KevApi.HandlerResult.ok (KevApi.Json.arr [KevApi.Json.obj [("count",
        KevApi.Json.num ((t.rows.filter
          (fun row => row.getD i KevApi.SqlValue.null != KevApi.SqlValue.null)).length))]]) := by
  subst hdb
  unfold KevApi.getCountRoute
  rw [hauth]
  simp [KevApi.countHandler, KevApi.countCveIdRows, hcol]

/-- Witness for C9's amended theorem: an authenticated request over a
two-row catalog with one null cveID, counting 1. -/
theorem getCount_spec_witness :
    KevApi.verifyApiKey ⟨[("x-api-key", "key1"), ("app-name", "app1")], [], []⟩
      [⟨"key1", "app1", 0, none, true⟩] 5 =
      .proceed ⟨"key1", "app1", 0, none, true⟩ [⟨"key1", "app1", 0, some 5, true⟩] ∧
    ((⟨[("cveID", "TEXT")], [[KevApi.SqlValue.str "CVE-1"], [KevApi.SqlValue.null]]⟩ :
        KevApi.KevTable).columns.findIdx? (fun c => c.1 == "cveID") = some 0) ∧
    KevApi.getCountRoute ⟨[("x-api-key", "key1"), ("app-name", "app1")], [], []⟩
      [⟨"key1", "app1", 0, none, true⟩] 5
      (some ⟨[("cveID", "TEXT")], [[KevApi.SqlValue.str "CVE-1"], [KevApi.SqlValue.null]]⟩) =
      KevApi.HandlerResult.ok (KevApi.Json.arr [KevApi.Json.obj [("count",
        KevApi.Json.num (((⟨[("cveID", "TEXT")],
            [[KevApi.SqlValue.str "CVE-1"], [KevApi.SqlValue.null]]⟩ :
            KevApi.KevTable).rows.filter
          (fun row => row.getD 0 KevApi.SqlValue.null != KevApi.SqlValue.null)).length))]]) :=
  ⟨by decide, by decide,
    getCount_spec ⟨[("x-api-key", "key1"), ("app-name", "app1")], [], []⟩
      [⟨"key1", "app1", 0, none, true⟩] [⟨"key1", "app1", 0, some 5, true⟩] 5
      ⟨"key1", "app1", 0, none, true⟩
      (some ⟨[("cveID", "TEXT")], [[KevApi.SqlValue.str "CVE-1"], [KevApi.SqlValue.null]]⟩)
      ⟨[("cveID", "TEXT")], [[KevApi.SqlValue.str "CVE-1"], [KevApi.SqlValue.null]]⟩ 0
      (by decide) rfl (by decide)⟩
